import Mathlib

/-!
Shallow embedding of the todo-chronicle Angular front end, together with
theorems about its client-side state logic.  The data model follows
`src/frontend/src/app/models/types.ts`; the operations are translated from
the task-list component, the story component, the services, the auth guard
and the date-format pipe.  TypeScript `T | undefined` fields are modelled
as `Option T` (with `none` for `undefined`), timestamps as epoch
milliseconds (`Int`, the value of `Date.prototype.getTime`), and fallible
HTTP calls as an explicit outcome argument.
-/

namespace TodoChronicle

/-- Task status enum from `models/types.ts`: `PENDING = 0`, `COMPLETED = 1`. -/
inductive TaskStatus where
  | PENDING
  | COMPLETED
deriving DecidableEq

/-- Numeric value of a `TaskStatus`, as used by the TypeScript enum. -/
def TaskStatus.toNat : TaskStatus → Nat
  | .PENDING => 0
  | .COMPLETED => 1

/-- Story phase enum from `models/types.ts`: KI=0, SHO=1, TEN=2, KETSU=3, KAN=4. -/
inductive StoryPhase where
  | KI
  | SHO
  | TEN
  | KETSU
  | KAN
deriving DecidableEq

/-- Numeric value of a `StoryPhase`, as used by the TypeScript enum. -/
def StoryPhase.toNat : StoryPhase → Nat
  | .KI => 0
  | .SHO => 1
  | .TEN => 2
  | .KETSU => 3
  | .KAN => 4

/-- A task (`Task` interface of `models/types.ts`, plus the `category`
field used by the task-list component). -/
structure Task where
  id : Option String
  title : String
  due_date : Option Int
  status : TaskStatus
  created_at : Int
  completed_at : Option Int
  experienced_at : Option Int
  category : Option Nat
deriving DecidableEq

/-- A story chapter (`Story` interface of `models/types.ts`; the
`completed_tasks` map list, used only for HTML highlighting, is omitted). -/
structure Story where
  id : Option String
  season_id : String
  chapter_no : Nat
  title : String
  content : String
  insight : String
  phase : StoryPhase
  created_at : Int
  summary : Option String
  imageUrl : Option String
deriving DecidableEq

/-- A season (`Season` interface of `models/types.ts`).  The component code
defensively treats `stories` as possibly `undefined`, so it is an `Option`. -/
structure Season where
  id : Option String
  season_no : Nat
  total_exp : Nat
  current_chapter : Nat
  current_phase : StoryPhase
  previous_summary : String
  created_at : Int
  required_exp : Nat
  stories : Option (List Story)
deriving DecidableEq

/-- Application user record (`User` interface of `models/types.ts`). -/
structure User where
  player_name : Option String
  created_at : Int
  current_season_id : Option String
  season_ids : List String
deriving DecidableEq

/-- Dashboard data (`Dashboard` interface of `models/types.ts`). -/
structure Dashboard where
  user : User
  tasks : List Task
  seasons : List Season
deriving DecidableEq

/-- Outcome of an HTTP call observed by a subscriber: the decoded body on
success, or the HTTP error status on failure. -/
inductive HttpOutcome (α : Type) where
  | ok (value : α)
  | err (status : Nat)
deriving DecidableEq

/-! Claim C9: `TaskListComponent.displayTasks`
(`task-list.component.ts` lines 687-702). -/

/-- Comparator passed to `Array.prototype.sort` by `displayTasks`:
status ascending first, then `created_at` descending.  `a` is ordered
before `b` exactly when the result is nonpositive. -/
def displayTasksCmp (a b : Task) : Int :=
  if a.status.toNat ≠ b.status.toNat then
    (a.status.toNat : Int) - (b.status.toNat : Int)
  else
    b.created_at - a.created_at

/-- Boolean order induced by `displayTasksCmp`. -/
def displayTasksLe (a b : Task) : Bool :=
  decide (displayTasksCmp a b ≤ 0)

/-- The `displayTasks` getter: filter by view mode, then sort by status
ascending and creation time descending (JavaScript `sort` is stable;
`List.mergeSort` models it). -/
def displayTasks (showAllTasks : Bool) (tasks : List Task) : List Task :=
  let filteredTasks := if showAllTasks then tasks else tasks.filter (fun task => task.status.toNat == 0)
  filteredTasks.mergeSort displayTasksLe

/-- Ordering stated by the claim: PENDING before COMPLETED, and among equal
statuses newest (largest `created_at`) first. -/
def displayOrder (a b : Task) : Prop :=
  a.status.toNat < b.status.toNat ∨ (a.status = b.status ∧ b.created_at ≤ a.created_at)

theorem TaskStatus.toNat_inj {a b : TaskStatus} : a.toNat = b.toNat ↔ a = b := by
  cases a <;> cases b <;> simp [TaskStatus.toNat]

theorem displayTasksLe_iff (a b : Task) : displayTasksLe a b = true ↔ displayOrder a b := by
  unfold displayTasksLe displayTasksCmp displayOrder
  by_cases h : a.status.toNat = b.status.toNat
  · simp only [h, ne_eq, not_true_eq_false, if_false, decide_eq_true_eq]
    constructor
    · intro hle
      exact Or.inr ⟨TaskStatus.toNat_inj.mp h, by omega⟩
    · intro hor
      rcases hor with hlt | ⟨_, hle⟩
      · omega
      · omega
  · simp only [ne_eq, h, not_false_eq_true, if_true, decide_eq_true_eq]
    constructor
    · intro hle
      exact Or.inl (by omega)
    · intro hor
      rcases hor with hlt | ⟨heq, _⟩
      · omega
      · exact absurd (TaskStatus.toNat_inj.mpr heq) h

theorem displayTasksLe_trans (a b c : Task) :
    displayTasksLe a b → displayTasksLe b c → displayTasksLe a c := by
  intro hab hbc
  rw [displayTasksLe_iff] at hab hbc ⊢
  rcases hab with h1 | ⟨h1, h1d⟩ <;> rcases hbc with h2 | ⟨h2, h2d⟩
  · exact Or.inl (Nat.lt_trans h1 h2)
  · exact Or.inl (by rw [← TaskStatus.toNat_inj] at h2; omega)
  · exact Or.inl (by rw [← TaskStatus.toNat_inj] at h1; omega)
  · exact Or.inr ⟨h1.trans h2, h2d.trans h1d⟩

theorem displayTasksLe_total (a b : Task) :
    displayTasksLe a b || displayTasksLe b a := by
  rw [Bool.or_eq_true]
  unfold displayTasksLe displayTasksCmp
  by_cases hst : a.status.toNat = b.status.toNat
  · rw [if_neg (show ¬ a.status.toNat ≠ b.status.toNat by omega),
      if_neg (show ¬ b.status.toNat ≠ a.status.toNat by omega)]
    simp only [decide_eq_true_eq]
    omega
  · rw [if_pos (show a.status.toNat ≠ b.status.toNat from hst),
      if_pos (show b.status.toNat ≠ a.status.toNat by omega)]
    simp only [decide_eq_true_eq]
    omega

/-- Claim C9: with `showAllTasks = false` the getter returns exactly the
PENDING tasks, with `showAllTasks = true` all tasks, and in both modes the
result is ordered with PENDING tasks before COMPLETED tasks and, among
equal statuses, by `created_at` descending. -/
theorem displayTasks_spec (tasks : List Task) :
    List.Perm (displayTasks false tasks)
      (tasks.filter (fun task => decide (task.status = TaskStatus.PENDING))) ∧
    List.Perm (displayTasks true tasks) tasks ∧
    ∀ showAllTasks : Bool, (displayTasks showAllTasks tasks).Pairwise displayOrder := by
  have hfilter : (fun task : Task => task.status.toNat == 0) =
      (fun task : Task => decide (task.status = TaskStatus.PENDING)) := by
    funext task
    cases task.status <;> rfl
  refine ⟨?_, ?_, ?_⟩
  · unfold displayTasks
    simp only [if_false, Bool.false_eq_true]
    rw [hfilter]
    exact List.mergeSort_perm _ _
  · unfold displayTasks
    simp only [if_true]
    exact List.mergeSort_perm _ _
  · intro showAllTasks
    unfold displayTasks
    have hs := List.sorted_mergeSort
      (fun a b c hab hbc => displayTasksLe_trans a b c hab hbc)
      (fun a b => displayTasksLe_total a b)
      (if showAllTasks then tasks else tasks.filter (fun task => task.status.toNat == 0))
    exact hs.imp (fun h => (displayTasksLe_iff _ _).mp h)

/-! Claim C10: `DateFormatPipe.transform`
(`pipes/date-format.pipe.ts` lines 20-31). -/

/-- Calendar fields of a valid JavaScript `Date`: `getMonth()` (0-based)
and `getDate()` (day of month). -/
structure JSDateFields where
  month0 : Nat
  day : Nat
deriving DecidableEq

/-- Possible inputs of the pipe, mirroring `string | Date | undefined`.
A `jsDate none` models an Invalid Date object (whose `getTime()` is NaN). -/
inductive DateFormatInput where
  | undef
  | str (s : String)
  | jsDate (fields : Option JSDateFields)
deriving DecidableEq

/-- The `transform` method.  JavaScript string-to-date parsing is
host-defined, so it is a parameter `parse`; `parse s = none` models a
string for which `new Date(s)` is an Invalid Date.  The empty string is
falsy in JavaScript and is caught by the `!value` guard. -/
def DateFormatPipe.transform (parse : String → Option JSDateFields) :
    DateFormatInput → String
  | .undef => ""
  | .str s =>
    if s = "" then ""
    else
      match parse s with
      | none => ""
      | some d => toString (d.month0 + 1) ++ "月" ++ toString d.day ++ "日"
  | .jsDate none => ""
  | .jsDate (some d) => toString (d.month0 + 1) ++ "月" ++ toString d.day ++ "日"

/-- Claim C10: the pipe is total (it is a Lean function), returns the empty
string on undefined, empty, or unparseable input, and otherwise returns
the string month月day日 built from the 1-based month and the day of the
month of the parsed date. -/
theorem dateFormatPipe_transform_spec (parse : String → Option JSDateFields) :
    DateFormatPipe.transform parse .undef = "" ∧
    DateFormatPipe.transform parse (.str "") = "" ∧
    DateFormatPipe.transform parse (.jsDate none) = "" ∧
    (∀ s, parse s = none → DateFormatPipe.transform parse (.str s) = "") ∧
    (∀ s d, s ≠ "" → parse s = some d →
      DateFormatPipe.transform parse (.str s) =
        toString (d.month0 + 1) ++ "月" ++ toString d.day ++ "日") ∧
    (∀ d, DateFormatPipe.transform parse (.jsDate (some d)) =
      toString (d.month0 + 1) ++ "月" ++ toString d.day ++ "日") := by
  refine ⟨rfl, rfl, rfl, ?_, ?_, fun d => rfl⟩
  · intro s hparse
    unfold DateFormatPipe.transform
    by_cases hs : s = ""
    · simp [hs]
    · simp [hs, hparse]
  · intro s d hs hparse
    unfold DateFormatPipe.transform
    simp [hs, hparse]

/-- Witness for C10: the characterization evaluated at a concrete parse
function and concrete inputs. -/
theorem dateFormatPipe_transform_spec_witness :
    DateFormatPipe.transform (fun _ => some ⟨2, 15⟩) (.str "2024-03-15") = "3月15日" ∧
    DateFormatPipe.transform (fun _ => none) (.str "garbage") = "" := by
  constructor
  · have h := (dateFormatPipe_transform_spec (fun _ => some ⟨2, 15⟩)).2.2.2.2.1
      "2024-03-15" ⟨2, 15⟩ (by decide) rfl
    rw [h]
    rfl
  · exact (dateFormatPipe_transform_spec (fun _ => none)).2.2.2.1 "garbage" rfl

/-! Claim C6: `TaskService.updateTask` (`services/task.service.ts` lines 56-71). -/

/-- Effect of `TaskService.updateTask` on the published `tasksSubject`
list.  On success the `tap` replaces every task whose `id` equals `taskId`
by the server's task; on failure `catchError` leaves the list untouched
and re-throws, modelled by returning the error status. -/
def TaskService.updateTask (currentTasks : List Task) (taskId : String)
    (outcome : HttpOutcome Task) : List Task × Option Nat :=
  match outcome with
  | .ok updatedTask =>
    (currentTasks.map (fun task => if task.id = some taskId then updatedTask else task), none)
  | .err e => (currentTasks, some e)

/-- Claim C6: on success the published list equals the previous list with
every task whose id equals `taskId` replaced by the server's task, all
other entries and the order unchanged (stated index-wise); on failure the
list is unchanged and the error is re-thrown. -/
theorem taskService_updateTask_spec (currentTasks : List Task) (taskId : String) :
    (∀ updatedTask : Task,
      (TaskService.updateTask currentTasks taskId (.ok updatedTask)).2 = none ∧
      (TaskService.updateTask currentTasks taskId (.ok updatedTask)).1.length =
        currentTasks.length ∧
      ∀ i : Nat,
        (TaskService.updateTask currentTasks taskId (.ok updatedTask)).1[i]? =
          (currentTasks[i]?).map
            (fun task => if task.id = some taskId then updatedTask else task)) ∧
    (∀ e : Nat, TaskService.updateTask currentTasks taskId (.err e) = (currentTasks, some e)) := by
  refine ⟨fun updatedTask => ⟨rfl, ?_, fun i => ?_⟩, fun e => rfl⟩
  · exact List.length_map _ _
  · exact List.getElem?_map _ _ _

/-! Claim C7: `AuthGuard` (`guards/auth.guard.ts` lines 17-39). -/

/-- Firebase-authenticated user as observed on `AuthService.user$`. -/
structure AuthUser where
  uid : String
deriving DecidableEq

/-- Observable outcome of the guard: the boolean it yields for route
activation, and whether it triggered `router.navigate` to /login. -/
structure GuardOutcome where
  allowed : Bool
  navigatedToLogin : Bool
deriving DecidableEq

/-- Decision of the guard's `map` on one emitted user value. -/
def authGuardDecide : Option AuthUser → GuardOutcome
  | some _ => { allowed := true, navigatedToLogin := false }
  | none => { allowed := false, navigatedToLogin := true }

/-- The guard applied to the whole `user$` emission stream: `take(1)`
makes it decide on the first emission only (`none` when the stream never
emits, in which case the guard observable never resolves). -/
def authGuard (emissions : List (Option AuthUser)) : Option GuardOutcome :=
  emissions.head?.map authGuardDecide

/-- Claim C7: the guard decides on the first emitted user value; it allows
activation exactly when that value is non-null, and on null it navigates
to /login and yields false.  Later emissions are irrelevant. -/
theorem authGuard_spec (emissions : List (Option AuthUser)) (firstUser : Option AuthUser)
    (h : emissions.head? = some firstUser) :
    authGuard emissions = some (authGuardDecide firstUser) ∧
    (authGuardDecide firstUser).allowed = firstUser.isSome ∧
    (authGuardDecide firstUser).navigatedToLogin = firstUser.isNone ∧
    (∀ rest : List (Option AuthUser), authGuard (firstUser :: rest) = authGuard [firstUser]) := by
  refine ⟨?_, ?_, ?_, fun rest => rfl⟩
  · unfold authGuard
    rw [h]
    rfl
  · cases firstUser <;> rfl
  · cases firstUser <;> rfl

/-- Witness for C7: the guard evaluated on a stream whose first emission
is a null user, and on one whose first emission is a signed-in user. -/
theorem authGuard_spec_witness :
    authGuard [none, some { uid := "u1" }] =
      some { allowed := false, navigatedToLogin := true } ∧
    authGuard [some { uid := "u1" }] =
      some { allowed := true, navigatedToLogin := false } := by
  constructor
  · exact (authGuard_spec [none, some { uid := "u1" }] none rfl).1.trans rfl
  · exact (authGuard_spec [some { uid := "u1" }] (some { uid := "u1" }) rfl).1.trans rfl

/-! Claim C8: `StoryService.getStoryImage` (`services/story.service.ts`
lines 20-21 and 40-42). -/

/-- The service's base URL: `environment.apiUrl + "/users/me/seasons"`.
The deployment-specific `environment.apiUrl` is a parameter. -/
def StoryService.apiUrl (envApiUrl : String) : String :=
  envApiUrl ++ "/users/me/seasons"

set_option linter.unusedVariables false in
/-- URL of the GET request issued by `StoryService.getStoryImage`.  The
`storyId` argument is accepted but, as in the source, never used. -/
def StoryService.getStoryImageUrl (envApiUrl seasonId storyId : String) : String :=
  StoryService.apiUrl envApiUrl ++ "/" ++ seasonId ++ "/story-image-url"

/-- Claim C8 fails on the code: for a fixed season, the request URL is the
same for two different story ids, so the request cannot address the
identified story, contradicting the method's own doc comment and
signature. -/
theorem getStoryImageUrl_ignores_storyId :
    StoryService.getStoryImageUrl "https://api.example.com" "season1" "storyA" =
      StoryService.getStoryImageUrl "https://api.example.com" "season1" "storyB" ∧
    StoryService.getStoryImageUrl "https://api.example.com" "season1" "storyA" =
      "https://api.example.com/users/me/seasons/season1/story-image-url" :=
  ⟨rfl, rfl⟩

/-! Claim C1: `TaskListComponent.createNewTask`
(`task-list.component.ts` lines 920-948 and 981-1042). -/

/-- Form data assembled by `saveTask` and passed to `createNewTask`. -/
structure NewTaskData where
  title : String
  due_date : Option Int
  status : TaskStatus
  created_at : Int
  category : Option Nat
deriving DecidableEq

/-- Temporary id of the optimistic local task: the template literal
built from the prefix temp underscore and `Date.now()`. -/
def tempTaskId (nowMs : Int) : String :=
  "temp_" ++ toString nowMs

/-- The optimistic local task built by `createNewTask`: the form data with
a temporary id, `created_at` set to now, and status forced to PENDING. -/
def mkLocalTask (taskData : NewTaskData) (nowMs : Int) : Task :=
  { id := some (tempTaskId nowMs)
    title := taskData.title
    due_date := taskData.due_date
    status := TaskStatus.PENDING
    created_at := nowMs
    completed_at := none
    experienced_at := none
    category := taskData.category }

/-- Task list immediately after `createNewTask` runs, before the create
request resolves: the local task is prepended. -/
def createNewTaskOptimistic (tasks : List Task) (taskData : NewTaskData)
    (nowMs : Int) : List Task :=
  mkLocalTask taskData nowMs :: tasks

/-- The `findIndex`-then-assign step of the success callback: replace the
first task whose id matches `targetId`, in place. -/
def replaceFirstById (tasks : List Task) (targetId : Option String)
    (serverTask : Task) : List Task :=
  match tasks.findIdx? (fun t => decide (t.id = targetId)) with
  | some i => tasks.set i serverTask
  | none => tasks

/-- Task list after the create request resolves: on success the local task
is replaced by the server's task; on failure every task carrying the
temporary id is filtered out. -/
def createNewTaskResolve (tasks : List Task) (taskData : NewTaskData) (nowMs : Int)
    (outcome : HttpOutcome Task) : List Task :=
  let localTask := mkLocalTask taskData nowMs
  let afterPrepend := localTask :: tasks
  match outcome with
  | .ok serverTask => replaceFirstById afterPrepend localTask.id serverTask
  | .err _ => afterPrepend.filter (fun t => !(decide (t.id = localTask.id)))

/-- Claim C1: the local task is prepended immediately with a temp-prefixed
id, PENDING status and the entered title, due date and category; on
success only that task is replaced in place by the server's task; on
failure it is removed, restoring the pre-save list (the temporary id is
fresh with respect to the existing tasks). -/
theorem createNewTask_spec (tasks : List Task) (taskData : NewTaskData) (nowMs : Int) :
    (createNewTaskOptimistic tasks taskData nowMs = mkLocalTask taskData nowMs :: tasks ∧
      (mkLocalTask taskData nowMs).id = some ("temp_" ++ toString nowMs) ∧
      (mkLocalTask taskData nowMs).status = TaskStatus.PENDING ∧
      (mkLocalTask taskData nowMs).title = taskData.title ∧
      (mkLocalTask taskData nowMs).due_date = taskData.due_date ∧
      (mkLocalTask taskData nowMs).category = taskData.category) ∧
    (∀ serverTask : Task,
      createNewTaskResolve tasks taskData nowMs (.ok serverTask) = serverTask :: tasks) ∧
    (∀ e : Nat, (∀ t ∈ tasks, t.id ≠ some (tempTaskId nowMs)) →
      createNewTaskResolve tasks taskData nowMs (.err e) = tasks) := by
  refine ⟨⟨rfl, rfl, rfl, rfl, rfl, rfl⟩, fun serverTask => ?_, fun e hfresh => ?_⟩
  · unfold createNewTaskResolve replaceFirstById
    simp only [List.findIdx?_cons]
    rw [if_pos (by simp [mkLocalTask])]
    rfl
  · unfold createNewTaskResolve
    simp only
    rw [List.filter_cons]
    rw [if_neg (by simp [mkLocalTask])]
    exact List.filter_eq_self.mpr (fun t ht => by
      simp only [Bool.not_eq_true', decide_eq_false_iff_not]
      simpa [mkLocalTask] using hfresh t ht)

/-- Witness for C1: the whole flow evaluated on a concrete one-task list,
a concrete form entry, and both outcomes. -/
theorem createNewTask_spec_witness :
    createNewTaskResolve
        [{ id := some "srv1", title := "old", due_date := none, status := TaskStatus.PENDING,
           created_at := 10, completed_at := none, experienced_at := none, category := none }]
        { title := "buy milk", due_date := some 1000, status := TaskStatus.PENDING,
          created_at := 42, category := some 4 } 42
        (.err 500) =
      [{ id := some "srv1", title := "old", due_date := none, status := TaskStatus.PENDING,
         created_at := 10, completed_at := none, experienced_at := none, category := none }] := by
  exact (createNewTask_spec
    [{ id := some "srv1", title := "old", due_date := none, status := TaskStatus.PENDING,
       created_at := 10, completed_at := none, experienced_at := none, category := none }]
    { title := "buy milk", due_date := some 1000, status := TaskStatus.PENDING,
      created_at := 42, category := some 4 } 42).2.2 500 (by decide)

/-! Claim C2: `StoryComponent.loadStoryImages` retry machine
(`src/unnamed/part_002` lines 54-61 and 226-263). -/

/-- One step of the loading animation in milliseconds (`LOADING_INTERVAL_MS`). -/
def LOADING_INTERVAL_MS : Nat := 1800

/-- Maximum number of image-retrieval retries (`MAX_LOADING_STEPS`). -/
def MAX_LOADING_STEPS : Nat := 20

/-- Response of the story-image request as seen by the subscriber. -/
inductive ImageResponse where
  | ok (url : String)
  | err (status : Nat)
deriving DecidableEq

/-- Retry-relevant state of the story component: the `imageRetryCount`
field, the pending `imageRetryTimeout` (delay in ms when one is
scheduled), and the season whose image is being loaded. -/
structure RetryMachineState where
  imageRetryCount : Nat
  retryScheduledMs : Option Nat
  season : Season
deriving DecidableEq

/-- Guard of `loadStoryImages`: a request is issued only for a season in
the KAN phase whose `stories` array is defined and contains a KAN-phase
story (the completed story). -/
def loadStoryImagesIssues (season : Season) : Bool :=
  decide (season.current_phase = StoryPhase.KAN) &&
    season.stories.isSome &&
    (season.stories.getD []).any (fun story => decide (story.phase = StoryPhase.KAN))

/-- Assign `imageUrl` on the first KAN-phase story, as the success callback
does through the alias returned by `find`. -/
def setFirstKanImage : List Story → String → List Story
  | [], _ => []
  | story :: rest, url =>
    if story.phase = StoryPhase.KAN then { story with imageUrl := some url } :: rest
    else story :: setFirstKanImage rest url

/-- One transition of the retry machine: handling the response of one
issued request.  When the guard rejects the season no request is issued
and the state is unchanged. -/
def loadStoryImagesStep (s : RetryMachineState) (resp : ImageResponse) : RetryMachineState :=
  if loadStoryImagesIssues s.season then
    match resp with
    | .ok url =>
      { s with
        season := { s.season with
          stories := s.season.stories.map (fun stories => setFirstKanImage stories url) }
        imageRetryCount := 0
        retryScheduledMs := none }
    | .err _ =>
      if s.imageRetryCount < MAX_LOADING_STEPS then
        { s with
          imageRetryCount := s.imageRetryCount + 1
          retryScheduledMs := some LOADING_INTERVAL_MS }
      else
        { s with imageRetryCount := 0, retryScheduledMs := none }
  else s

/-- Predicate used by `loadStoryImages` to find the completed story. -/
def isKanStory (story : Story) : Bool :=
  decide (story.phase = StoryPhase.KAN)

theorem setFirstKanImage_cons_pos (story : Story) (rest : List Story) (url : String)
    (h : story.phase = StoryPhase.KAN) :
    setFirstKanImage (story :: rest) url = { story with imageUrl := some url } :: rest := by
  simp [setFirstKanImage, h]

theorem setFirstKanImage_cons_neg (story : Story) (rest : List Story) (url : String)
    (h : ¬ story.phase = StoryPhase.KAN) :
    setFirstKanImage (story :: rest) url = story :: setFirstKanImage rest url := by
  simp [setFirstKanImage, h]

/-- Finding the completed story after `setFirstKanImage`: the first
KAN-phase story now carries the stored URL. -/
theorem setFirstKanImage_find (stories : List Story) (url : String) (completedStory : Story)
    (hfind : stories.find? isKanStory = some completedStory) :
    (setFirstKanImage stories url).find? isKanStory =
      some { completedStory with imageUrl := some url } := by
  induction stories with
  | nil => simp [List.find?] at hfind
  | cons story rest ih =>
    by_cases hphase : story.phase = StoryPhase.KAN
    · have hpa : isKanStory story = true := by
        simp [isKanStory, hphase]
      rw [List.find?_cons_of_pos _ hpa] at hfind
      have hstory : story = completedStory := Option.some.inj hfind
      rw [setFirstKanImage_cons_pos story rest url hphase]
      have hpa2 : isKanStory { story with imageUrl := some url } = true := by
        simp [isKanStory, hphase]
      rw [List.find?_cons_of_pos _ hpa2, hstory]
    · have hpa : ¬ isKanStory story = true := by
        simp [isKanStory, hphase]
      rw [List.find?_cons_of_neg _ hpa] at hfind
      rw [setFirstKanImage_cons_neg story rest url hphase]
      rw [List.find?_cons_of_neg _ hpa]
      exact ih hfind

/-- States reachable by the retry machine from the component's initial
state (`imageRetryCount = 0`, no timer). -/
inductive RetryReachable : RetryMachineState → Prop where
  | init (season : Season) :
      RetryReachable { imageRetryCount := 0, retryScheduledMs := none, season := season }
  | step (s : RetryMachineState) (resp : ImageResponse) :
      RetryReachable s → RetryReachable (loadStoryImagesStep s resp)

/-- Claim C2: the constants are 1800 ms and 20; a failure schedules exactly
one retry 1800 ms later and only while the counter is strictly below 20;
the counter never exceeds 20 in any reachable state; and both success
(which stores the URL in the completed story's `imageUrl`) and exhaustion
reset the counter to 0 with no retry scheduled. -/
theorem loadStoryImages_retry_spec :
    LOADING_INTERVAL_MS = 1800 ∧
    MAX_LOADING_STEPS = 20 ∧
    (∀ s : RetryMachineState, RetryReachable s → s.imageRetryCount ≤ 20) ∧
    (∀ (s : RetryMachineState) (e : Nat),
      loadStoryImagesIssues s.season = true → s.imageRetryCount < 20 →
      loadStoryImagesStep s (.err e) =
        { s with
          imageRetryCount := s.imageRetryCount + 1
          retryScheduledMs := some 1800 }) ∧
    (∀ (s : RetryMachineState) (e : Nat),
      loadStoryImagesIssues s.season = true → ¬ s.imageRetryCount < 20 →
      loadStoryImagesStep s (.err e) =
        { s with imageRetryCount := 0, retryScheduledMs := none }) ∧
    (∀ (s : RetryMachineState) (url : String) (stories : List Story),
      loadStoryImagesIssues s.season = true → s.season.stories = some stories →
      loadStoryImagesStep s (.ok url) =
        { s with
          season := { s.season with stories := some (setFirstKanImage stories url) }
          imageRetryCount := 0
          retryScheduledMs := none }) ∧
    (∀ (stories : List Story) (url : String) (completedStory : Story),
      stories.find? isKanStory = some completedStory →
      (setFirstKanImage stories url).find? isKanStory =
        some { completedStory with imageUrl := some url }) := by
  refine ⟨rfl, rfl, ?_, ?_, ?_, ?_, ?_⟩
  · intro s h
    induction h with
    | init season => exact Nat.zero_le _
    | step s resp ih count_le =>
      unfold loadStoryImagesStep
      by_cases hg : loadStoryImagesIssues s.season = true
      · rw [if_pos hg]
        cases resp with
        | ok url => exact Nat.zero_le _
        | err e =>
          by_cases hc : s.imageRetryCount < MAX_LOADING_STEPS
          · rw [if_pos hc]
            exact hc
          · rw [if_neg hc]
            exact Nat.zero_le _
      · rw [if_neg hg]
        exact count_le
  · intro s e hg hc
    unfold loadStoryImagesStep
    rw [if_pos hg]
    simp only [MAX_LOADING_STEPS, LOADING_INTERVAL_MS]
    rw [if_pos hc]
  · intro s e hg hc
    unfold loadStoryImagesStep
    rw [if_pos hg]
    simp only [MAX_LOADING_STEPS, LOADING_INTERVAL_MS]
    rw [if_neg hc]
  · intro s url stories hg hstories
    unfold loadStoryImagesStep
    rw [if_pos hg]
    simp only [hstories]
    rfl
  · exact setFirstKanImage_find

/-- Sample completed (KAN) story used by the C2 witness. -/
def sampleKanStory : Story :=
  { id := some "st1", season_id := "s1", chapter_no := 4, title := "fin", content := "",
    insight := "", phase := StoryPhase.KAN, created_at := 0, summary := none, imageUrl := none }

/-- Sample completed (KAN) season used by the C2 witness. -/
def sampleKanSeason : Season :=
  { id := some "s1", season_no := 1, total_exp := 0, current_chapter := 4,
    current_phase := StoryPhase.KAN, previous_summary := "", created_at := 0,
    required_exp := 100, stories := some [sampleKanStory] }

/-- Witness for C2: the retry machine evaluated on a concrete completed
season with one KAN story: a first failure schedules one retry at 1800 ms
and increments the counter to 1. -/
theorem loadStoryImages_retry_spec_witness :
    (∀ s : RetryMachineState, RetryReachable s → s.imageRetryCount ≤ 20) ∧
    loadStoryImagesStep
        { imageRetryCount := 0, retryScheduledMs := none, season := sampleKanSeason }
        (.err 404) =
      { imageRetryCount := 1, retryScheduledMs := some 1800, season := sampleKanSeason } := by
  constructor
  · exact loadStoryImages_retry_spec.2.2.1
  · exact loadStoryImages_retry_spec.2.2.2.1
      { imageRetryCount := 0, retryScheduledMs := none, season := sampleKanSeason }
      404 (by decide) (by decide)

/-! Claim C3: `StoryComponent.currentSeason`
(`src/unnamed/part_002` lines 131-152). -/

/-- The two view tabs of the story component. -/
inductive StoryView where
  | current
  | history
deriving DecidableEq

/-- State of the story component read by the `currentSeason` getter. -/
structure StoryComponentState where
  seasons : List Season
  selectedStorySeasonId : Option String
  selectedSeasonId : Option String
  currentView : StoryView
  selectedSeason : Option Season
deriving DecidableEq

/-- Steps 3-5 of the getter: in the history view prefer `selectedSeason`,
then `selectedSeason` anyway, then the first season not in phase 4. -/
def currentSeasonFrom3 (st : StoryComponentState) : Option Season :=
  match st.currentView, st.selectedSeason with
  | .history, some season => some season
  | _, _ =>
    match st.selectedSeason with
    | some season => some season
    | none => st.seasons.find? (fun season => !(decide (season.current_phase.toNat = 4)))

/-- Step 2 of the getter: the season selected by `selectedSeasonId`. -/
def currentSeasonFrom2 (st : StoryComponentState) : Option Season :=
  match st.selectedSeasonId with
  | some sid =>
    match st.seasons.find? (fun season => decide (season.id = some sid)) with
    | some season => some season
    | none => currentSeasonFrom3 st
  | none => currentSeasonFrom3 st

/-- The `currentSeason` getter, translated step by step from the source. -/
def currentSeason (st : StoryComponentState) : Option Season :=
  match st.selectedStorySeasonId with
  | some sid =>
    match st.seasons.find? (fun season => decide (season.id = some sid)) with
    | some season => some season
    | none => currentSeasonFrom2 st
  | none => currentSeasonFrom2 st

/-- The claim's wording of the getter: `selectedStorySeasonId` lookup
first, then `selectedSeasonId` lookup, then the stored `selectedSeason`
regardless of the view, then the first season whose phase is not KAN,
else nothing. -/
def currentSeasonSpec (st : StoryComponentState) : Option Season :=
  match st.selectedStorySeasonId.bind
      (fun sid => st.seasons.find? (fun season => decide (season.id = some sid))) with
  | some season => some season
  | none =>
    match st.selectedSeasonId.bind
        (fun sid => st.seasons.find? (fun season => decide (season.id = some sid))) with
    | some season => some season
    | none =>
      match st.selectedSeason with
      | some season => some season
      | none => st.seasons.find? (fun season => !(decide (season.current_phase = StoryPhase.KAN)))

/-- Claim C3: the getter agrees everywhere with the claimed derivation; in
particular the history/current distinction of the source's step 3 is
immaterial, and the numeric test `current_phase !== 4` coincides with
testing for the KAN phase. -/
theorem currentSeason_eq_spec (st : StoryComponentState) :
    currentSeason st = currentSeasonSpec st := by
  have hphase : (fun season : Season => !(decide (season.current_phase.toNat = 4))) =
      (fun season : Season => !(decide (season.current_phase = StoryPhase.KAN))) := by
    funext season
    cases h : season.current_phase <;> simp [StoryPhase.toNat, h]
  have hfrom3 : currentSeasonFrom3 st =
      (match st.selectedSeason with
        | some season => some season
        | none =>
          st.seasons.find?
            (fun season => !(decide (season.current_phase = StoryPhase.KAN)))) := by
    unfold currentSeasonFrom3
    rw [hphase]
    cases hv : st.currentView <;> cases hs : st.selectedSeason <;> simp
  unfold currentSeason currentSeasonSpec currentSeasonFrom2
  rw [hfrom3]
  cases h1 : st.selectedStorySeasonId <;> cases h2 : st.selectedSeasonId <;> simp [Option.bind]

/-! Claims C4 and C5: `TaskListComponent.updateExperience`
(`task-list.component.ts` lines 739-856). -/

/-- Body of the experience-update response consumed by the component. -/
structure ExpUpdateResponse where
  earned_exp : Nat
  season : Season
  new_season : Option Season
  story : Story
  user : User
deriving DecidableEq

/-- Step (a) of the success callback: when a dashboard season carries the
response season's id, replace it by the response season while keeping the
previously loaded stories (an undefined array becomes the empty one). -/
def replaceSeasonKeepStories (seasons : List Season) (respSeason : Season) : List Season :=
  match seasons.findIdx? (fun season => decide (season.id = respSeason.id)) with
  | some i =>
    match seasons[i]? with
    | some old => seasons.set i { respSeason with stories := some (old.stories.getD []) }
    | none => seasons
  | none => seasons

/-- Step (b): a new season carried by the response is unshifted to the
front of the seasons list. -/
def prependNewSeason (seasons : List Season) (newSeason : Option Season) : List Season :=
  match newSeason with
  | some ns => ns :: seasons
  | none => seasons

/-- Step (c): the response story is unshifted onto the stories of the
first season carrying the response season's id. -/
def prependStoryToSeason (seasons : List Season) (respSeasonId : Option String)
    (story : Story) : List Season :=
  match seasons.findIdx? (fun season => decide (season.id = respSeasonId)) with
  | some i =>
    match seasons[i]? with
    | some cur => seasons.set i { cur with stories := some (story :: cur.stories.getD []) }
    | none => seasons
  | none => seasons

/-- Season reconciliation of the success callback, steps in source order. -/
def applyExpSeasons (seasons : List Season) (resp : ExpUpdateResponse) : List Season :=
  prependStoryToSeason
    (prependNewSeason (replaceSeasonKeepStories seasons resp.season) resp.new_season)
    resp.season.id resp.story

/-- Timestamping of the success callback: completed tasks without an
`experienced_at` receive the current time; every other task is kept. -/
def stampExperienced (tasks : List Task) (nowMs : Int) : List Task :=
  tasks.map (fun task =>
    if task.status = TaskStatus.COMPLETED ∧ task.experienced_at = none then
      { task with experienced_at := some nowMs }
    else task)

/-- Eligibility check of `updateExperience`: some completed task has not
yet earned experience. -/
def hasEligibleTasks (tasks : List Task) : Bool :=
  tasks.any (fun task =>
    decide (task.status = TaskStatus.COMPLETED) && task.experienced_at.isNone)

/-- Component state read and written by `updateExperience`.  The
`isUpdatingExperience` flag is raised while the request is in flight and
lowered on every exit path, so a completed call leaves it as found. -/
structure TaskListState where
  isEnabled : Bool
  isUpdatingExperience : Bool
  isMobile : Bool
  tasks : List Task
  dashboard : Option Dashboard
deriving DecidableEq

/-- Outcome of the experience-update request. -/
inductive ExpOutcome where
  | ok (resp : ExpUpdateResponse)
  | err (status : Nat)
deriving DecidableEq

/-- The `updateExperience` method as a state transformer; the boolean
records whether the experience-update HTTP request was issued. -/
def updateExperience (st : TaskListState) (outcome : ExpOutcome) (nowMs : Int) :
    TaskListState × Bool :=
  if ¬ st.isEnabled ∨ st.isUpdatingExperience then (st, false)
  else if ¬ hasEligibleTasks st.tasks then (st, false)
  else
    match outcome with
    | .err _ => (st, true)
    | .ok resp =>
      if resp.earned_exp = 0 then (st, true)
      else
        match st.dashboard with
        | none => (st, true)
        | some dash =>
          let newTasks := stampExperienced st.tasks nowMs
          ({ st with
              tasks := newTasks
              dashboard := some
                { user := resp.user
                  tasks := newTasks
                  seasons := applyExpSeasons dash.seasons resp } }, true)

/-- Claim C4: with nonzero earned experience and dashboard data present,
the stored seasons become `applyExpSeasons`, whose three steps behave as
claimed: (a) the matching season is replaced in place keeping its loaded
stories, all other entries untouched; (b) a new season is prepended;
(c) the response story is unshifted onto the stories of the season whose
id equals the response season's id, all other entries untouched. -/
theorem updateExperience_reconciliation (seasons : List Season) (resp : ExpUpdateResponse) :
    (∀ (st : TaskListState) (nowMs : Int) (dash : Dashboard),
      st.isEnabled = true → st.isUpdatingExperience = false →
      hasEligibleTasks st.tasks = true → resp.earned_exp ≠ 0 →
      st.dashboard = some dash → dash.seasons = seasons →
      ((updateExperience st (.ok resp) nowMs).1.dashboard.map Dashboard.seasons) =
        some (applyExpSeasons seasons resp)) ∧
    (∀ (i : Nat) (old : Season),
      seasons.findIdx? (fun season => decide (season.id = resp.season.id)) = some i →
      seasons[i]? = some old →
      (replaceSeasonKeepStories seasons resp.season).length = seasons.length ∧
      (replaceSeasonKeepStories seasons resp.season)[i]? =
        some { resp.season with stories := some (old.stories.getD []) } ∧
      (∀ j : Nat, j ≠ i → (replaceSeasonKeepStories seasons resp.season)[j]? = seasons[j]?)) ∧
    (seasons.findIdx? (fun season => decide (season.id = resp.season.id)) = none →
      replaceSeasonKeepStories seasons resp.season = seasons) ∧
    (∀ (l : List Season) (ns : Season), prependNewSeason l (some ns) = ns :: l) ∧
    (∀ l : List Season, prependNewSeason l none = l) ∧
    (∀ (l : List Season) (story : Story) (j : Nat) (cur : Season),
      l.findIdx? (fun season => decide (season.id = resp.season.id)) = some j →
      l[j]? = some cur →
      (prependStoryToSeason l resp.season.id story).length = l.length ∧
      (prependStoryToSeason l resp.season.id story)[j]? =
        some { cur with stories := some (story :: cur.stories.getD []) } ∧
      (∀ k : Nat, k ≠ j → (prependStoryToSeason l resp.season.id story)[k]? = l[k]?)) ∧
    applyExpSeasons seasons resp =
      prependStoryToSeason
        (prependNewSeason (replaceSeasonKeepStories seasons resp.season) resp.new_season)
        resp.season.id resp.story := by
  refine ⟨?_, ?_, ?_, fun l ns => rfl, fun l => rfl, ?_, rfl⟩
  · intro st nowMs dash hE hU hElig hexp hdash hseasons
    unfold updateExperience
    rw [if_neg (by simp [hE, hU])]
    rw [if_neg (by simp [hElig])]
    simp only [hdash]
    rw [if_neg hexp]
    simp only [Option.map_some']
    rw [hseasons]
  · intro i old hidx hget
    have hi : i < seasons.length := by
      rcases List.getElem?_eq_some_iff.mp hget with ⟨h, _⟩
      exact h
    unfold replaceSeasonKeepStories
    rw [hidx]
    simp only [hget]
    refine ⟨by simp, ?_, ?_⟩
    · rw [List.getElem?_set_self (by simpa using hi)]
    · intro j hj
      exact List.getElem?_set_ne (Ne.symm hj)
  · intro hidx
    unfold replaceSeasonKeepStories
    rw [hidx]
  · intro l story j cur hidx hget
    have hj : j < l.length := by
      rcases List.getElem?_eq_some_iff.mp hget with ⟨h, _⟩
      exact h
    unfold prependStoryToSeason
    rw [hidx]
    simp only [hget]
    refine ⟨by simp, ?_, ?_⟩
    · rw [List.getElem?_set_self (by simpa using hj)]
    · intro k hk
      exact List.getElem?_set_ne (Ne.symm hk)

/-- Sample user record for concrete witnesses. -/
def sampleUser : User :=
  { player_name := some "hero", created_at := 0, current_season_id := some "s1",
    season_ids := ["s1"] }

/-- Sample completed-but-unstamped task for concrete witnesses. -/
def sampleEligibleTask : Task :=
  { id := some "t1", title := "done", due_date := none, status := TaskStatus.COMPLETED,
    created_at := 0, completed_at := some 5, experienced_at := none, category := none }

/-- Sample experience-update response for concrete witnesses. -/
def sampleExpResponse : ExpUpdateResponse :=
  { earned_exp := 10, season := sampleKanSeason, new_season := none,
    story := sampleKanStory, user := sampleUser }

/-- Witness for C4: the reconciliation theorem applied to a one-season
dashboard matching the response season's id. -/
theorem updateExperience_reconciliation_witness :
    (replaceSeasonKeepStories [sampleKanSeason] sampleExpResponse.season).length = 1 ∧
    (replaceSeasonKeepStories [sampleKanSeason] sampleExpResponse.season)[0]? =
      some { sampleExpResponse.season with stories := some [sampleKanStory] } := by
  have h := (updateExperience_reconciliation [sampleKanSeason] sampleExpResponse).2.1
    0 sampleKanSeason (by decide) rfl
  exact ⟨h.1, h.2.1⟩

/-- Claim C5 (amended): the request is issued only when an eligible task
exists; without one the state is returned unchanged and no request is
made; and after a successful nonzero-experience update with dashboard
data present, exactly the completed tasks without `experienced_at` are
stamped with the current time, every other task unchanged. -/
theorem updateExperience_gate_and_stamp (st : TaskListState) (outcome : ExpOutcome)
    (nowMs : Int) :
    ((updateExperience st outcome nowMs).2 = true → hasEligibleTasks st.tasks = true) ∧
    (hasEligibleTasks st.tasks = false → updateExperience st outcome nowMs = (st, false)) ∧
    (∀ (resp : ExpUpdateResponse) (dash : Dashboard),
      st.isEnabled = true → st.isUpdatingExperience = false →
      hasEligibleTasks st.tasks = true → resp.earned_exp ≠ 0 → st.dashboard = some dash →
      (updateExperience st (.ok resp) nowMs).1.tasks.length = st.tasks.length ∧
      (∀ i : Nat, (updateExperience st (.ok resp) nowMs).1.tasks[i]? =
        (st.tasks[i]?).map (fun task =>
          if task.status = TaskStatus.COMPLETED ∧ task.experienced_at = none then
            { task with experienced_at := some nowMs }
          else task)) ∧
      (updateExperience st (.ok resp) nowMs).1.dashboard =
        some { user := resp.user
               tasks := stampExperienced st.tasks nowMs
               seasons := applyExpSeasons dash.seasons resp }) := by
  have hgate : hasEligibleTasks st.tasks = false →
      updateExperience st outcome nowMs = (st, false) := by
    intro hElig
    unfold updateExperience
    by_cases h1 : ¬ st.isEnabled ∨ st.isUpdatingExperience
    · rw [if_pos h1]
    · rw [if_neg h1, if_pos (by simp [hElig])]
  refine ⟨?_, hgate, ?_⟩
  · intro htrue
    cases hb : hasEligibleTasks st.tasks with
    | true => rfl
    | false =>
      rw [hgate hb] at htrue
      exact absurd htrue (by simp)
  · intro resp dash hE hU hElig hexp hdash
    have hred : updateExperience st (.ok resp) nowMs =
        ({ st with
            tasks := stampExperienced st.tasks nowMs
            dashboard := some
              { user := resp.user
                tasks := stampExperienced st.tasks nowMs
                seasons := applyExpSeasons dash.seasons resp } }, true) := by
      unfold updateExperience
      rw [if_neg (by simp [hE, hU])]
      rw [if_neg (by simp [hElig])]
      simp only [hdash]
      rw [if_neg hexp]
    rw [hred]
    refine ⟨by simp [stampExperienced], fun i => ?_, rfl⟩
    simp only [stampExperienced]
    exact List.getElem?_map _ _ _

/-- State with eligible tasks but no dashboard data, for the C5
counterexample. -/
def sampleNoDashState : TaskListState :=
  { isEnabled := true, isUpdatingExperience := false, isMobile := false,
    tasks := [sampleEligibleTask], dashboard := none }

/-- Counterexample to C5 as stated: the request is issued and succeeds
with nonzero `earned_exp`, the single task is completed with unset
`experienced_at`, yet because the dashboard data is absent no task is
stamped (the state is returned entirely unchanged). -/
theorem updateExperience_stamp_counterexample :
    hasEligibleTasks sampleNoDashState.tasks = true ∧
    sampleExpResponse.earned_exp ≠ 0 ∧
    (updateExperience sampleNoDashState (.ok sampleExpResponse) 99).2 = true ∧
    (updateExperience sampleNoDashState (.ok sampleExpResponse) 99).1 = sampleNoDashState ∧
    (updateExperience sampleNoDashState (.ok sampleExpResponse) 99).1.tasks.map
        Task.experienced_at = [none] := by
  refine ⟨by decide, by decide, by decide, by decide, by decide⟩

/-- Dashboard and state with eligible tasks and dashboard data present,
for the C5 witness. -/
def sampleDashboard : Dashboard :=
  { user := sampleUser, tasks := [sampleEligibleTask], seasons := [sampleKanSeason] }

/-- State used by the C5 witness. -/
def sampleDashState : TaskListState :=
  { isEnabled := true, isUpdatingExperience := false, isMobile := false,
    tasks := [sampleEligibleTask], dashboard := some sampleDashboard }

/-- Witness for C5: with dashboard data present, the eligible task is
stamped with the current time. -/
theorem updateExperience_gate_and_stamp_witness :
    (updateExperience sampleDashState (.ok sampleExpResponse) 99).1.tasks[0]? =
      some { sampleEligibleTask with experienced_at := some 99 } := by
  have h := (updateExperience_gate_and_stamp sampleDashState (.ok sampleExpResponse) 99).2.2
    sampleExpResponse sampleDashboard rfl rfl (by decide) (by decide) rfl
  rw [h.2.1 0]
  decide

end TodoChronicle
